import Mathlib

/-!
Verification development for the K12 CLI verification tool (`k12_cli.py`).

The development shallowly embeds the three core components of the program:

* `search_schools` — the organization resolver (per-category directory
  lookups, deduplication by identifier, truncation to 20 records);
* `display_schools_cli` — the candidate-selection input loop;
* `submit_sheerid` — the six-step submission orchestrator, modelled as a
  pure function of the environment's responses that also returns the list
  of network calls it issued, in order;
* `extract_verification_id` — the regular-expression extraction of the
  verification identifier from an input URL.

Machine-level aspects that no claim depends on (the HTTP transport itself,
image rendering, local file output, Unicode numeral classes beyond ASCII)
are outside the embedding; response shapes follow the wire interface the
program consumes (JSON array of objects for the directory search, a
`documents` array of upload URLs for the upload-slot response).
-/

/-- A JSON scalar as it occurs in the `id` field of a directory-search
record: an integer or a string.  (The program only ever reads the `id`,
`name`, `type`, `city`, `state` fields; of these, only `id` participates
in any computation the claims mention.) -/
inductive JVal where
  | int (n : Int)
  | str (s : String)
deriving DecidableEq, Repr

/-- Python truthiness of a `JVal`: `0` and the empty string are falsy. -/
def JVal.truthy : JVal → Bool
  | .int n => n ≠ 0
  | .str s => s ≠ ""

/-- One organization record from the directory service.  `id` is `none`
when the JSON object has no `id` key (`school.get("id")` then yields
`None`). -/
structure School where
  id : Option JVal
  name : String
deriving DecidableEq, Repr

/-- Body of one directory-search response: either a JSON array of
organization records or something else (`isinstance(data, list)` fails). -/
inductive RespBody where
  | arr (schools : List School)
  | nonArr
deriving DecidableEq, Repr

/-- Outcome of one per-category directory lookup: a response with a status
code and a body, or a transport-level exception (timeout, connection
error, JSON decode error). -/
inductive CatOutcome where
  | resp (status : Nat) (body : RespBody)
  | transportErr
deriving DecidableEq, Repr

/-- The records one category contributes to `all_schools`: the body's
array on a 200 response with a list body, nothing otherwise (the loop
`continue`s on a non-200 status, a non-list body, or an exception). -/
def categorySchools : CatOutcome → List School
  | .transportErr => []
  | .resp st body =>
    if st ≠ 200 then []
    else
      match body with
      | .nonArr => []
      | .arr l => l

/-- Whether a category lookup failed (non-200 status, non-array body, or
transport error), as opposed to succeeding with a (possibly empty) list. -/
def catFailed : CatOutcome → Bool
  | .transportErr => true
  | .resp st body =>
    st ≠ 200 ||
      match body with
      | .nonArr => true
      | .arr _ => false

/-- The deduplication loop of `search_schools` (lines 85–98): walk the
concatenated list keeping a `seen_ids` set; a record is appended exactly
when its `id` is present, truthy, and not seen before. -/
def uniqueSchools (seen : List JVal) : List School → List School
  | [] => []
  | s :: rest =>
    match s.id with
    | none => uniqueSchools seen rest
    | some i =>
      if JVal.truthy i ∧ i ∉ seen then s :: uniqueSchools (i :: seen) rest
      else uniqueSchools seen rest

/-- `search_schools` (lines 47–101): the two category lookups (`K12` first,
then `HIGH_SCHOOL`) contribute their records in order; the concatenation is
deduplicated and the first 20 survivors are returned. -/
def search_schools (o1 o2 : CatOutcome) : List School :=
  (uniqueSchools [] (categorySchools o1 ++ categorySchools o2)).take 20

/-- Deduplication by a key, as the specification words it: the first
occurrence of each key wins and insertion order is preserved.  Defined by
removing, behind each kept record, every later record with the same key. -/
def dedupByKey (key : School → Option JVal) : List School → List School
  | [] => []
  | s :: rest => s :: dedupByKey key (rest.filter (fun t => key t ≠ key s))
termination_by l => l.length
decreasing_by
  simp only [List.length_cons]
  exact Nat.lt_succ_of_le (List.length_filter_le _ _)

/-- The aggregation exactly as claimed: concatenate the two category result
lists, deduplicate by identifier (first occurrence wins), truncate to 20. -/
def claimResolve (l1 l2 : List School) : List School :=
  (dedupByKey (fun s => s.id) (l1 ++ l2)).take 20

/-- Whether a record survives the truthiness test of the deduplication
loop: its `id` must be present and truthy. -/
def keepId (s : School) : Bool :=
  match s.id with
  | some i => JVal.truthy i
  | none => false

/-- Civil (proleptic Gregorian) date from a day count, with day 0 being
1970-01-01; this is the calendar arithmetic `datetime` performs when a
`timedelta` in days is subtracted and the result rendered as a date.
Returns (year, month, day). -/
def civilFromDays (z : Int) : Int × Nat × Nat :=
  let zs := z + 719468
  let era := Int.fdiv zs 146097
  let doe := zs - era * 146097
  let yoe := Int.fdiv (doe - Int.fdiv doe 1460 + Int.fdiv doe 36524 - Int.fdiv doe 146096) 365
  let y := yoe + era * 400
  let doy := doe - (365 * yoe + Int.fdiv yoe 4 - Int.fdiv yoe 100)
  let mp := Int.fdiv (5 * doy + 2) 153
  let d := doy - Int.fdiv (153 * mp + 2) 5 + 1
  let m := if mp < 10 then mp + 3 else mp - 9
  (if m ≤ 2 then y + 1 else y, m.toNat, d.toNat)

/-- Day count of a civil (proleptic Gregorian) date, inverse of
`civilFromDays` on valid dates; used to name concrete days. -/
def daysFromCivil (y : Int) (m d : Nat) : Int :=
  let yp := if m ≤ 2 then y - 1 else y
  let era := Int.fdiv yp 400
  let yoe := yp - era * 400
  let mp : Nat := if 2 < m then m - 3 else m + 9
  let doy : Nat := (153 * mp + 2) / 5 + d - 1
  let doe := yoe * 365 + Int.fdiv yoe 4 - Int.fdiv yoe 100 + (doy : Int)
  era * 146097 + doe - 719468

/-- Zero-padded two-digit rendering, as `%m` and `%d` produce. -/
def pad2 (n : Nat) : String :=
  if n < 10 then "0" ++ toString n else toString n

/-- `strftime("%Y-%m-%d")` of a (year, month, day) triple. -/
def formatYMD : Int × Nat × Nat → String
  | (y, m, d) => toString y ++ "-" ++ pad2 m ++ "-" ++ pad2 d

/-- `random.randint(a, b)`: an integer drawn from `[a, b]` inclusive; the
draw itself is modelled by the seed `r` reduced into the range. -/
def randint (a b r : Nat) : Nat :=
  a + r % (b - a + 1)

/-- The birth-date derivation of `submit_sheerid` (lines 170–172):
`(datetime.now() - timedelta(days=age * 365)).strftime("%Y-%m-%d")`,
with `today` the day count of the current date. -/
def birth_date (today : Int) (age : Nat) : String :=
  formatYMD (civilFromDays (today - (age * 365 : Nat)))

/-- The sixteen characters of the string the fingerprint is drawn from. -/
def hexChars : List Char := "0123456789abcdef".data

/-- The device-fingerprint derivation (lines 173–175): 32 independent
choices from `"0123456789abcdef"`, modelled by a choice function. -/
def device_fp (c : Fin 32 → Fin 16) : String :=
  String.mk ((List.finRange 32).map (fun i => hexChars.getD (c i).val (Char.ofNat 48)))

/-- The date claimed by the specification: the same calendar date with the
year reduced by the age in whole years. -/
def minusWholeYears : Int × Nat × Nat → Nat → Int × Nat × Nat
  | (y, m, d), n => (y - n, m, d)

/-- Digits-to-number accumulation, as `int()` performs on a digit string. -/
def digitsToNat (l : List Char) : Nat :=
  l.foldl (fun n c => n * 10 + (c.toNat - 48)) 0

/-- Models Python `int()` applied to a `str`: an optional sign followed by
one or more ASCII decimal digits.  (Surrounding whitespace and underscore
separators, which `int()` also tolerates, are not modelled; no claim
depends on them.) -/
def pyIntOfString (s : String) : Option Int :=
  match s.data with
  | '-' :: rest =>
    if rest ≠ [] ∧ rest.all Char.isDigit then some (-(digitsToNat rest : Int)) else none
  | '+' :: rest =>
    if rest ≠ [] ∧ rest.all Char.isDigit then some ((digitsToNat rest : Int)) else none
  | l =>
    if l ≠ [] ∧ l.all Char.isDigit then some ((digitsToNat l : Int)) else none

/-- Python `int()` applied to a JSON scalar: the identity on integers, the
string parse on strings. -/
def pyInt : JVal → Option Int
  | .int n => some n
  | .str s => pyIntOfString s

/-- A single quote character, written by code point to keep source text
plain. -/
def sqChar : Char := Char.ofNat 39

/-- Python `repr` quoting of a string, as it appears in exception text. -/
def pyQuote (s : String) : String :=
  String.singleton sqChar ++ s ++ String.singleton sqChar

/-- The `ValueError` description produced when `int()` rejects its
argument (only strings can be rejected). -/
def pyIntErrMsg : JVal → String
  | .int _ => ""
  | .str s => "invalid literal for int() with base 10: " ++ pyQuote s

/-- The result dict of `submit_sheerid`. -/
structure SubmissionResult where
  success : Bool
  message : String
deriving DecidableEq, Repr

/-- The organization object sent in the step-2 body. -/
structure Organization where
  id : Int
  name : String
deriving DecidableEq, Repr

/-- The JSON body of the personal-info submission (lines 182–193). -/
structure Step2Body where
  firstName : String
  lastName : String
  birthDate : String
  email : String
  organization : Organization
  deviceFingerprintHash : String
  locale : String
deriving DecidableEq, Repr

/-- One declared file of the upload-slot request body (lines 218–231). -/
structure FileDecl where
  fileName : String
  mimeType : String
  fileSize : Nat
deriving DecidableEq, Repr

/-- One network call of the submission protocol, in the order issued. -/
inductive SCall where
  | postPersonalInfo (body : Step2Body)
  | deleteSso
  | postDocUpload (files : List FileDecl)
  | putUpload (url : String) (contentType : String) (content : List Nat)
  | postCompleteDocUpload
deriving DecidableEq, Repr

/-- Whether a call is the personal-info submission (step 2). -/
def SCall.isPersonalInfo : SCall → Bool
  | .postPersonalInfo _ => true
  | _ => false

/-- Whether a call is a document transfer (step 5). -/
def SCall.isPutUpload : SCall → Bool
  | .putUpload _ _ _ => true
  | _ => false

/-- Whether a call is the completion call (step 6). -/
def SCall.isCompleteCall : SCall → Bool
  | .postCompleteDocUpload => true
  | _ => false

/-- The environment's responses to the submission protocol's calls: the
status codes of every step, and the `documents` array of the step-4
response body, reduced to its entries' `uploadUrl` values (the only field
the program reads; a response without a `documents` key is the empty
list, matching `step4_data.get("documents", [])`). -/
structure Responses where
  step2Status : Nat
  step3Status : Nat
  step4Status : Nat
  step4Documents : List String
  pdfPutStatus : Nat
  pngPutStatus : Nat
  completeStatus : Nat
deriving DecidableEq, Repr

/-- `submit_sheerid` (lines 146–287), as a function of the derivation
seeds (`today`, `ageRand`, `fpRand`), the session fields, and the
environment `env`; returns the result dict and the list of network calls
issued, in order.  The `int(school["id"])` conversion happens while the
step-2 body is built, before any call is issued; its `ValueError` (or the
`KeyError` of a missing `id`) is caught by the generic handler of lines
284–287. -/
def submit_sheerid (today : Int) (ageRand : Nat) (fpRand : Fin 32 → Fin 16)
    (first_name last_name email : String) (school : School)
    (pdf_data png_data : List Nat) (env : Responses) :
    SubmissionResult × List SCall :=
  let age := randint 25 60 ageRand
  let birthDate := birth_date today age
  let deviceFp := device_fp fpRand
  match school.id with
  | none =>
    ({ success := false, message := "Submission error: " ++ pyQuote "id" }, [])
  | some idv =>
    match pyInt idv with
    | none =>
      ({ success := false, message := "Submission error: " ++ pyIntErrMsg idv }, [])
    | some orgId =>
      let body2 : Step2Body :=
        { firstName := first_name, lastName := last_name, birthDate := birthDate,
          email := email, organization := { id := orgId, name := school.name },
          deviceFingerprintHash := deviceFp, locale := "en-US" }
      if env.step2Status ≠ 200 then
        ({ success := false, message := "Step 2 failed: " ++ toString env.step2Status },
         [.postPersonalInfo body2])
      else
        let files : List FileDecl :=
          [{ fileName := "paystub.pdf", mimeType := "application/pdf",
             fileSize := pdf_data.length },
           { fileName := "faculty_id.png", mimeType := "image/png",
             fileSize := png_data.length }]
        if env.step4Status ≠ 200 then
          ({ success := false, message := "Step 4 failed: " ++ toString env.step4Status },
           [.postPersonalInfo body2, .deleteSso, .postDocUpload files])
        else
          let docs := env.step4Documents
          if docs.length < 2 then
            ({ success := false, message := "No upload URLs received from SheerID" },
             [.postPersonalInfo body2, .deleteSso, .postDocUpload files])
          else
            ({ success := true, message := "Submitted successfully" },
             [.postPersonalInfo body2, .deleteSso, .postDocUpload files,
              .putUpload (docs.getD 0 "") "application/pdf" pdf_data,
              .putUpload (docs.getD 1 "") "image/png" png_data,
              .postCompleteDocUpload])

/-- Python `str.isdigit()` on the ASCII inputs the embedding models: true
exactly for a non-empty string of decimal digits. -/
def pyIsDigit (s : String) : Bool :=
  !s.data.isEmpty && s.data.all Char.isDigit

/-- `int()` applied to a string that passed `isdigit()`. -/
def strToNat (s : String) : Nat :=
  digitsToNat s.data

/-- The selection loop of `display_schools_cli` (lines 130–139), as a
function of the candidate count and the sequence of operator inputs:
a non-digit input or an out-of-range number is rejected and the next
input is solicited; a number in `[1, numSchools]` ends the loop with the
zero-based index.  `none` means the input sequence was exhausted with no
valid choice made. -/
def display_schools_cli (numSchools : Nat) : List String → Option Nat
  | [] => none
  | choice :: rest =>
    if pyIsDigit choice then
      if 1 ≤ strToNat choice ∧ strToNat choice ≤ numSchools then
        some (strToNat choice - 1)
      else display_schools_cli numSchools rest
    else display_schools_cli numSchools rest

/-- The literal of the verification-URL pattern, before its hex group. -/
def vidLit : List Char := "verificationId=".data

/-- Hex digit under `re.IGNORECASE`: the class `[a-f0-9]` matches both
cases of the letters. -/
def hexCI (c : Char) : Bool :=
  c.isDigit || ('a' ≤ c && c ≤ 'f') || ('A' ≤ c && c ≤ 'F')

/-- Hex digit as the specification claims it: lowercase only. -/
def lcHex (c : Char) : Bool :=
  c.isDigit || ('a' ≤ c && c ≤ 'f')

/-- Case-insensitive literal match at the head of the input, returning the
remainder on success; this is how `re.IGNORECASE` compares the literal
part of the pattern. -/
def litMatchCI : List Char → List Char → Option (List Char)
  | [], l => some l
  | _ :: _, [] => none
  | p :: ps, c :: cs =>
    if c.toLower = p.toLower then litMatchCI ps cs else none

/-- One attempt of the pattern `verificationId=([a-f0-9]{24})` (with
`re.IGNORECASE`) anchored at the head of the input: the literal, then
exactly 24 hex characters captured as the group. -/
def matchVidAt (l : List Char) : Option (List Char) :=
  match litMatchCI vidLit l with
  | none => none
  | some rest =>
    let g := rest.take 24
    if g.length = 24 ∧ g.all hexCI then some g else none

/-- `re.search`: try the pattern at each position, left to right, and
return the first match's captured group. -/
def reSearchVid : List Char → Option (List Char)
  | [] => none
  | c :: cs =>
    match matchVidAt (c :: cs) with
    | some g => some g
    | none => reSearchVid cs

/-- The verification-identifier extraction of `main_flow` (lines 311–321):
`re.search(r"verificationId=([a-f0-9]{24})", url, re.IGNORECASE)`,
returning the captured group. -/
def extract_verification_id (url : String) : Option String :=
  (reSearchVid url.data).map String.mk

/-- The URL prompt loop of `main_flow` (lines 304–324): inputs whose URL
does not match the pattern are rejected and the next input solicited. -/
def main_flow_vid : List String → Option String
  | [] => none
  | u :: rest =>
    match extract_verification_id u with
    | some vid => some vid
    | none => main_flow_vid rest

/-- Acceptance exactly as the claim words it: the URL contains the literal
`verificationId=` (case-sensitively) followed by 24 lowercase hexadecimal
characters. -/
def claimVidAccepts (l : List Char) : Bool :=
  (List.range (l.length + 1)).any (fun n =>
    decide ((l.drop n).take vidLit.length = vidLit)
    && decide ((((l.drop n).drop vidLit.length).take 24).length = 24)
    && (((l.drop n).drop vidLit.length).take 24).all lcHex)

/-- Whether the case-insensitive pattern matches at the head of the input:
the literal compared under case folding, followed by at least 24 hex
characters of either case. -/
def ciVidAt (l : List Char) : Bool :=
  decide ((l.take vidLit.length).map Char.toLower = vidLit.map Char.toLower)
  && decide ((((l.drop vidLit.length).take 24).length = 24))
  && ((l.drop vidLit.length).take 24).all hexCI

/-- The extraction as amended: the 24 characters (case preserved) after
the leftmost position at which the case-insensitive pattern matches. -/
def ciVidExtract (l : List Char) : Option (List Char) :=
  (List.range (l.length + 1)).findSome? (fun n =>
    if ciVidAt (l.drop n) then some (((l.drop n).drop vidLit.length).take 24) else none)

/-- Every record `dedupByKey` keeps comes from its input list. -/
theorem mem_dedupByKey (k : School → Option JVal) (l : List School) (t : School)
    (ht : t ∈ dedupByKey k l) : t ∈ l := by
  match l with
  | [] => simp [dedupByKey] at ht
  | s :: rest =>
    rw [dedupByKey] at ht
    rcases List.mem_cons.mp ht with h | h
    · exact h ▸ List.mem_cons_self s rest
    · exact List.mem_cons_of_mem s (List.mem_of_mem_filter (mem_dedupByKey k _ t h))
termination_by l.length
decreasing_by
  simp only [List.length_cons]
  exact Nat.lt_succ_of_le (List.length_filter_le _ _)

/-- `dedupByKey` keeps at most one record per key. -/
theorem pairwise_dedupByKey (k : School → Option JVal) (l : List School) :
    (dedupByKey k l).Pairwise (fun a b => k a ≠ k b) := by
  match l with
  | [] => simp [dedupByKey]
  | s :: rest =>
    rw [dedupByKey]
    refine List.Pairwise.cons ?_ (pairwise_dedupByKey k _)
    intro t ht
    have h1 := mem_dedupByKey k _ t ht
    have h2 := List.of_mem_filter h1
    intro heq
    rw [heq] at h2
    simp at h2
termination_by l.length
decreasing_by
  simp only [List.length_cons]
  exact Nat.lt_succ_of_le (List.length_filter_le _ _)

/-- The accumulator-based deduplication loop computes spec-style
deduplication of the records that are truthy and unseen. -/
theorem uniqueSchools_eq_dedupByKey (l : List School) :
    ∀ seen, uniqueSchools seen l =
      dedupByKey (fun s => s.id)
        (l.filter (fun s =>
          match s.id with
          | some i => JVal.truthy i && !decide (i ∈ seen)
          | none => false)) := by
  induction l with
  | nil => intro seen; simp [uniqueSchools, dedupByKey]
  | cons s rest ih =>
    intro seen
    cases hs : s.id with
    | none =>
      rw [List.filter_cons]
      simp only [hs]
      rw [uniqueSchools, hs]
      simpa using ih seen
    | some i =>
      have hu : uniqueSchools seen (s :: rest) =
          if JVal.truthy i ∧ i ∉ seen then s :: uniqueSchools (i :: seen) rest
          else uniqueSchools seen rest := by
        rw [uniqueSchools, hs]
      rw [List.filter_cons]
      simp only [hs]
      rw [hu]
      by_cases hk : JVal.truthy i ∧ i ∉ seen
      · have hkb : (JVal.truthy i && !decide (i ∈ seen)) = true := by
          simp [hk.1, hk.2]
        rw [if_pos hk, if_pos hkb]
        rw [dedupByKey, ih (i :: seen)]
        congr 1
        rw [List.filter_filter]
        congr 1
        apply List.filter_congr
        intro t _
        rw [hs]
        cases ht : t.id with
        | none => simp
        | some j =>
          by_cases hji : j = i
          · subst hji
            simp [List.mem_cons]
          · by_cases hjs : j ∈ seen <;> simp [List.mem_cons, hji, hjs]
      · have hkb : (JVal.truthy i && !decide (i ∈ seen)) = false := by
          rcases not_and_or.mp hk with h | h
          · simp [Bool.eq_false_iff.mpr h]
          · simp [not_not.mp h]
        rw [if_neg hk, if_neg (by simp [hkb])]
        exact ih seen

/-- C4: the claim describes the output of `search_schools` as pure
concatenate–deduplicate–truncate, but the deduplication loop also drops
every record whose identifier is absent or falsy; a unique record with
identifier `0` is excluded, so the claimed characterization fails. -/
theorem c4_counterexample :
    search_schools (.resp 200 (.arr [{ id := some (.int 0), name := "Z" }]))
        (.resp 200 (.arr [])) = []
    ∧ claimResolve [{ id := some (.int 0), name := "Z" }] []
        = [{ id := some (.int 0), name := "Z" }]
    ∧ search_schools (.resp 200 (.arr [{ id := some (.int 0), name := "Z" }]))
        (.resp 200 (.arr []))
        ≠ claimResolve [{ id := some (.int 0), name := "Z" }] [] := by
  have h2 : claimResolve [{ id := some (.int 0), name := "Z" }] []
      = [{ id := some (.int 0), name := "Z" }] := by
    simp [claimResolve, dedupByKey]
  refine ⟨rfl, h2, ?_⟩
  rw [h2]
  decide

/-- C4 (amended): for every pair of per-category result lists, the output
of `search_schools` is the concatenation of the category results in
category order, with records whose identifier is absent or falsy removed,
then deduplicated by identifier (first occurrence wins, insertion order
preserved), then truncated to at most 20 records; each identifier occurs
at most once and the output length never exceeds 20. -/
theorem c4_dedup_truncate (l1 l2 : List School) :
    search_schools (.resp 200 (.arr l1)) (.resp 200 (.arr l2)) =
      (dedupByKey (fun s => s.id) ((l1 ++ l2).filter keepId)).take 20
    ∧ (search_schools (.resp 200 (.arr l1)) (.resp 200 (.arr l2))).length ≤ 20
    ∧ (search_schools (.resp 200 (.arr l1)) (.resp 200 (.arr l2))).Pairwise
        (fun a b => a.id ≠ b.id) := by
  have hmain : search_schools (.resp 200 (.arr l1)) (.resp 200 (.arr l2)) =
      (dedupByKey (fun s => s.id) ((l1 ++ l2).filter keepId)).take 20 := by
    show (uniqueSchools [] (categorySchools _ ++ categorySchools _)).take 20 = _
    rw [show categorySchools (.resp 200 (.arr l1)) = l1 from rfl,
      show categorySchools (.resp 200 (.arr l2)) = l2 from rfl]
    rw [uniqueSchools_eq_dedupByKey (l1 ++ l2) []]
    congr 2
    apply List.filter_congr
    intro t _
    cases ht : t.id with
    | none => simp [keepId, ht]
    | some j => simp [keepId, ht]
  refine ⟨hmain, ?_, ?_⟩
  · rw [hmain, List.length_take]
    exact Nat.min_le_left _ _
  · rw [hmain]
    exact (pairwise_dedupByKey (fun s => s.id) _).sublist (List.take_sublist _ _)

/-- C5: a failed category lookup (non-200 status, non-array body, or
transport error) contributes nothing but leaves the other category's
processing untouched, and when both categories fail or return no
candidates the resolver returns the empty list rather than an error. -/
theorem c5_category_isolation (o1 o2 : CatOutcome) :
    (catFailed o1 = true →
      search_schools o1 o2 = search_schools (.resp 200 (.arr [])) o2)
    ∧ (catFailed o2 = true →
      search_schools o1 o2 = search_schools o1 (.resp 200 (.arr [])))
    ∧ ((catFailed o1 = true ∨ categorySchools o1 = []) →
       (catFailed o2 = true ∨ categorySchools o2 = []) →
       search_schools o1 o2 = []) := by
  have hcat : ∀ o, catFailed o = true → categorySchools o = [] := by
    intro o h
    cases o with
    | transportErr => rfl
    | resp st body =>
      cases body with
      | nonArr =>
        simp only [categorySchools]
        split <;> rfl
      | arr l =>
        simp only [catFailed, Bool.or_false] at h
        simp only [categorySchools]
        rw [if_pos (by simpa using h)]
  have hempty : ∀ o, (catFailed o = true ∨ categorySchools o = []) →
      categorySchools o = [] := by
    rintro o (h | h)
    · exact hcat o h
    · exact h
  refine ⟨?_, ?_, ?_⟩
  · intro h
    show (uniqueSchools [] (categorySchools o1 ++ categorySchools o2)).take 20 = _
    rw [hcat o1 h]
    rfl
  · intro h
    show (uniqueSchools [] (categorySchools o1 ++ categorySchools o2)).take 20 = _
    rw [hcat o2 h]
    rfl
  · intro h1 h2
    show (uniqueSchools [] (categorySchools o1 ++ categorySchools o2)).take 20 = _
    rw [hempty o1 h1, hempty o2 h2]
    rfl

/-- C5 witness: a transport error in the first category leaves the second
category's result intact, and two failed categories yield the empty list. -/
theorem c5_category_isolation_witness :
    (search_schools .transportErr (.resp 200 (.arr [{ id := some (.int 3), name := "A" }]))
      = search_schools (.resp 200 (.arr []))
          (.resp 200 (.arr [{ id := some (.int 3), name := "A" }])))
    ∧ search_schools .transportErr (.resp 404 .nonArr) = [] :=
  ⟨(c5_category_isolation .transportErr
      (.resp 200 (.arr [{ id := some (.int 3), name := "A" }]))).1 rfl,
   (c5_category_isolation .transportErr (.resp 404 .nonArr)).2.2
      (Or.inl rfl) (Or.inl rfl)⟩

/-- C9: every record the resolver outputs has a present, truthy
identifier; a record whose identifier is absent or falsy (`0`, `null`,
or the empty string) is excluded even when it is unique. -/
theorem c9_falsy_ids_excluded (o1 o2 : CatOutcome) :
    (search_schools o1 o2).all keepId = true
    ∧ search_schools
        (.resp 200 (.arr [{ id := some (.int 0), name := "A" },
          { id := none, name := "B" }, { id := some (.str ""), name := "C" }]))
        (.resp 200 (.arr [])) = [] := by
  constructor
  · have huniq : ∀ (l : List School) (seen : List JVal),
        (uniqueSchools seen l).all keepId = true := by
      intro l
      induction l with
      | nil => intro seen; rfl
      | cons s rest ih =>
        intro seen
        cases hs : s.id with
        | none =>
          rw [uniqueSchools, hs]
          exact ih seen
        | some i =>
          have hu : uniqueSchools seen (s :: rest) =
              if JVal.truthy i ∧ i ∉ seen then s :: uniqueSchools (i :: seen) rest
              else uniqueSchools seen rest := by
            rw [uniqueSchools, hs]
          rw [hu]
          by_cases hk : JVal.truthy i ∧ i ∉ seen
          · rw [if_pos hk]
            simp only [List.all_cons, Bool.and_eq_true]
            exact ⟨by simp [keepId, hs, hk.1], ih (i :: seen)⟩
          · rw [if_neg hk]
            exact ih seen
    rw [List.all_eq_true]
    intro x hx
    have hx' : x ∈ uniqueSchools [] (categorySchools o1 ++ categorySchools o2) :=
      List.take_subset _ _ hx
    exact List.all_eq_true.mp (huniq _ []) x hx'
  · rfl

/-- C1: whenever the personal-info submission returns 200 and the
upload-slot request returns 200 with at least two documents, the
orchestrator reports success with the fixed message, no matter what
status codes the SSO skip, the two transfers, and the completion call
return (the environment `env` carries arbitrary values for them). -/
theorem c1_success_regardless (today : Int) (ageRand : Nat) (fpRand : Fin 32 → Fin 16)
    (fn ln em : String) (school : School) (pdf png : List Nat) (env : Responses)
    (v : JVal) (n : Int) (hv : school.id = some v) (hn : pyInt v = some n)
    (h2 : env.step2Status = 200) (h4 : env.step4Status = 200)
    (hd : 2 ≤ env.step4Documents.length) :
    (submit_sheerid today ageRand fpRand fn ln em school pdf png env).1 =
      { success := true, message := "Submitted successfully" } := by
  simp [submit_sheerid, hv, hn, h2, h4, Nat.not_lt.mpr hd]

/-- C1 witness: a session whose steps 3, 5 and 6 all fail (statuses 500,
500, 418, 503) still reports success once steps 2 and 4 return 200 with
two documents. -/
theorem c1_success_regardless_witness :
    (submit_sheerid 20000 0 (fun _ => 0) "A" "B" "a@b.cd"
        { id := some (.int 7), name := "S" } [1] [2]
        { step2Status := 200, step3Status := 500, step4Status := 200,
          step4Documents := ["u1", "u2"], pdfPutStatus := 500,
          pngPutStatus := 418, completeStatus := 503 }).1 =
      { success := true, message := "Submitted successfully" } :=
  c1_success_regardless 20000 0 (fun _ => 0) "A" "B" "a@b.cd"
    { id := some (.int 7), name := "S" } [1] [2]
    { step2Status := 200, step3Status := 500, step4Status := 200,
      step4Documents := ["u1", "u2"], pdfPutStatus := 500,
      pngPutStatus := 418, completeStatus := 503 }
    (.int 7) 7 rfl rfl rfl rfl (by decide)

/-- C2: a non-200 status at the personal-info submission is terminal: the
orchestrator reports failure with the status code embedded in the message
and issues no call beyond step 2. -/
theorem c2_step2_halts (today : Int) (ageRand : Nat) (fpRand : Fin 32 → Fin 16)
    (fn ln em : String) (school : School) (pdf png : List Nat) (env : Responses)
    (v : JVal) (n : Int) (hv : school.id = some v) (hn : pyInt v = some n)
    (h2 : env.step2Status ≠ 200) :
    (submit_sheerid today ageRand fpRand fn ln em school pdf png env).1 =
      { success := false, message := "Step 2 failed: " ++ toString env.step2Status }
    ∧ ((submit_sheerid today ageRand fpRand fn ln em school pdf png env).2.all
        SCall.isPersonalInfo) = true := by
  refine ⟨?_, ?_⟩ <;> simp [submit_sheerid, hv, hn, h2, SCall.isPersonalInfo]

/-- C2 witness: a 403 at step 2 yields the terminal failure message
containing 403, and the call trace holds nothing but the step-2 call. -/
theorem c2_step2_halts_witness :
    (submit_sheerid 20000 0 (fun _ => 0) "A" "B" "a@b.cd"
        { id := some (.int 7), name := "S" } [1] [2]
        { step2Status := 403, step3Status := 200, step4Status := 200,
          step4Documents := ["u1", "u2"], pdfPutStatus := 200,
          pngPutStatus := 200, completeStatus := 200 }).1 =
      { success := false, message := "Step 2 failed: 403" }
    ∧ ((submit_sheerid 20000 0 (fun _ => 0) "A" "B" "a@b.cd"
        { id := some (.int 7), name := "S" } [1] [2]
        { step2Status := 403, step3Status := 200, step4Status := 200,
          step4Documents := ["u1", "u2"], pdfPutStatus := 200,
          pngPutStatus := 200, completeStatus := 200 }).2.all
        SCall.isPersonalInfo) = true :=
  c2_step2_halts 20000 0 (fun _ => 0) "A" "B" "a@b.cd"
    { id := some (.int 7), name := "S" } [1] [2]
    { step2Status := 403, step3Status := 200, step4Status := 200,
      step4Documents := ["u1", "u2"], pdfPutStatus := 200,
      pngPutStatus := 200, completeStatus := 200 }
    (.int 7) 7 rfl rfl (by decide)

/-- C3: a 200 upload-slot response whose documents array has fewer than
two entries is terminal with the fixed message, and neither a document
transfer nor the completion call is ever issued. -/
theorem c3_short_documents_halts (today : Int) (ageRand : Nat) (fpRand : Fin 32 → Fin 16)
    (fn ln em : String) (school : School) (pdf png : List Nat) (env : Responses)
    (v : JVal) (n : Int) (hv : school.id = some v) (hn : pyInt v = some n)
    (h2 : env.step2Status = 200) (h4 : env.step4Status = 200)
    (hd : env.step4Documents.length < 2) :
    (submit_sheerid today ageRand fpRand fn ln em school pdf png env).1 =
      { success := false, message := "No upload URLs received from SheerID" }
    ∧ ((submit_sheerid today ageRand fpRand fn ln em school pdf png env).2.all
        (fun c => !c.isPutUpload && !c.isCompleteCall)) = true := by
  refine ⟨?_, ?_⟩ <;>
    simp [submit_sheerid, hv, hn, h2, h4, hd, SCall.isPutUpload, SCall.isCompleteCall]

/-- C3 witness: a single upload URL (length-1 documents array) under a 200
status produces the fixed failure and no transfer or completion call. -/
theorem c3_short_documents_halts_witness :
    (submit_sheerid 20000 0 (fun _ => 0) "A" "B" "a@b.cd"
        { id := some (.int 7), name := "S" } [1] [2]
        { step2Status := 200, step3Status := 200, step4Status := 200,
          step4Documents := ["u1"], pdfPutStatus := 200,
          pngPutStatus := 200, completeStatus := 200 }).1 =
      { success := false, message := "No upload URLs received from SheerID" }
    ∧ ((submit_sheerid 20000 0 (fun _ => 0) "A" "B" "a@b.cd"
        { id := some (.int 7), name := "S" } [1] [2]
        { step2Status := 200, step3Status := 200, step4Status := 200,
          step4Documents := ["u1"], pdfPutStatus := 200,
          pngPutStatus := 200, completeStatus := 200 }).2.all
        (fun c => !c.isPutUpload && !c.isCompleteCall)) = true :=
  c3_short_documents_halts 20000 0 (fun _ => 0) "A" "B" "a@b.cd"
    { id := some (.int 7), name := "S" } [1] [2]
    { step2Status := 200, step3Status := 200, step4Status := 200,
      step4Documents := ["u1"], pdfPutStatus := 200,
      pngPutStatus := 200, completeStatus := 200 }
    (.int 7) 7 rfl rfl rfl rfl (by decide)

/-- C10: an organization identifier that `int()` rejects makes the
orchestrator return failure with the exception's description embedded in
the message, and no network call of the protocol is ever issued. -/
theorem c10_unconvertible_id (today : Int) (ageRand : Nat) (fpRand : Fin 32 → Fin 16)
    (fn ln em : String) (school : School) (pdf png : List Nat) (env : Responses)
    (v : JVal) (hv : school.id = some v) (hfail : pyInt v = none) :
    (submit_sheerid today ageRand fpRand fn ln em school pdf png env).1 =
      { success := false, message := "Submission error: " ++ pyIntErrMsg v }
    ∧ (submit_sheerid today ageRand fpRand fn ln em school pdf png env).2 = [] := by
  refine ⟨?_, ?_⟩ <;> simp [submit_sheerid, hv, hfail]

/-- C10 witness: the identifier string "abc" is rejected by `int()`; the
result carries the ValueError text and the call trace is empty. -/
theorem c10_unconvertible_id_witness :
    (submit_sheerid 20000 0 (fun _ => 0) "A" "B" "a@b.cd"
        { id := some (.str "abc"), name := "S" } [1] [2]
        { step2Status := 200, step3Status := 200, step4Status := 200,
          step4Documents := ["u1", "u2"], pdfPutStatus := 200,
          pngPutStatus := 200, completeStatus := 200 }).1 =
      { success := false,
        message := "Submission error: " ++ pyIntErrMsg (.str "abc") }
    ∧ (submit_sheerid 20000 0 (fun _ => 0) "A" "B" "a@b.cd"
        { id := some (.str "abc"), name := "S" } [1] [2]
        { step2Status := 200, step3Status := 200, step4Status := 200,
          step4Documents := ["u1", "u2"], pdfPutStatus := 200,
          pngPutStatus := 200, completeStatus := 200 }).2 = [] :=
  c10_unconvertible_id 20000 0 (fun _ => 0) "A" "B" "a@b.cd"
    { id := some (.str "abc"), name := "S" } [1] [2]
    { step2Status := 200, step3Status := 200, step4Status := 200,
      step4Documents := ["u1", "u2"], pdfPutStatus := 200,
      pngPutStatus := 200, completeStatus := 200 }
    (.str "abc") rfl rfl

/-- C8: for a non-empty candidate list, the selection loop only ever
returns an index strictly below the candidate count, and a non-numeric or
out-of-range input is skipped (the next input is solicited) rather than
ending the loop. -/
theorem c8_selector_bounds (numSchools : Nat) (inputs : List String)
    (_hpos : 0 < numSchools) :
    (∀ i, display_schools_cli numSchools inputs = some i → i < numSchools)
    ∧ (∀ choice rest,
        ¬(pyIsDigit choice = true ∧ 1 ≤ strToNat choice ∧ strToNat choice ≤ numSchools) →
        display_schools_cli numSchools (choice :: rest) =
          display_schools_cli numSchools rest) := by
  constructor
  · intro i
    induction inputs with
    | nil => simp [display_schools_cli]
    | cons c rest ih =>
      rw [display_schools_cli]
      by_cases hdig : pyIsDigit c = true
      · rw [if_pos hdig]
        by_cases hrange : 1 ≤ strToNat c ∧ strToNat c ≤ numSchools
        · rw [if_pos hrange]
          intro h
          have : i = strToNat c - 1 := by
            simpa using h.symm
          omega
        · rw [if_neg hrange]
          exact ih
      · rw [if_neg hdig]
        exact ih
  · intro choice rest hbad
    rw [display_schools_cli]
    by_cases hdig : pyIsDigit choice = true
    · rw [if_pos hdig]
      rw [if_neg (fun hr => hbad ⟨hdig, hr⟩)]
    · rw [if_neg hdig]

/-- C8 witness: with three candidates, the inputs "abc" (non-numeric),
"0" and "4" (out of range) are each skipped, and the accepted input "2"
yields index 1, which is strictly below 3. -/
theorem c8_selector_bounds_witness :
    0 < 3 ∧ 1 < 3
    ∧ display_schools_cli 3 ["abc", "0", "4", "2"] = display_schools_cli 3 ["0", "4", "2"] :=
  ⟨by decide,
   (c8_selector_bounds 3 ["abc", "0", "4", "2"] (by decide)).1 1 rfl,
   (c8_selector_bounds 3 ["abc", "0", "4", "2"] (by decide)).2 "abc" ["0", "4", "2"]
     (by decide)⟩

/-- C7 counterexample: on 2026-10-12 with the (legitimately drawn) age 30,
the code derives the birth date 1996-10-19 — 30·365 days earlier — while
the current date minus 30 whole years is 1996-10-12; the two differ by
the seven leap days in between. -/
theorem c7_counterexample :
    randint 25 60 5 = 30
    ∧ civilFromDays (daysFromCivil 2026 10 12) = (2026, 10, 12)
    ∧ birth_date (daysFromCivil 2026 10 12) 30 = "1996-10-19"
    ∧ formatYMD (minusWholeYears (civilFromDays (daysFromCivil 2026 10 12)) 30)
        = "1996-10-12"
    ∧ birth_date (daysFromCivil 2026 10 12) 30
        ≠ formatYMD (minusWholeYears (civilFromDays (daysFromCivil 2026 10 12)) 30) := by
  refine ⟨by decide, by decide, by decide, by decide, by decide⟩

/-- C7 (amended): the Init step draws an age from the inclusive range
25–60, derives the birth date as the current date minus age·365 days
(which drifts from "age whole years" by the leap days in between), and
derives a device fingerprint of exactly 32 characters, each of them one
of the sixteen lowercase hexadecimal digits. -/
theorem c7_init_derivation (today : Int) (r : Nat) (c : Fin 32 → Fin 16) :
    (25 ≤ randint 25 60 r ∧ randint 25 60 r ≤ 60)
    ∧ birth_date today (randint 25 60 r)
        = formatYMD (civilFromDays (today - (365 * randint 25 60 r : Nat)))
    ∧ (device_fp c).length = 32
    ∧ ((device_fp c).data.all (fun ch => decide (ch ∈ hexChars))) = true := by
  refine ⟨⟨Nat.le_add_right 25 _, ?_⟩, ?_, ?_, ?_⟩
  · have h : r % 36 < 36 := Nat.mod_lt _ (by omega)
    simp only [randint]
    omega
  · rw [birth_date, Nat.mul_comm]
  · have hd : (device_fp c).data = (List.finRange 32).map
        (fun i => hexChars.getD (c i).val (Char.ofNat 48)) := rfl
    show (device_fp c).data.length = 32
    rw [hd, List.length_map, List.length_finRange]
  · have hd : (device_fp c).data = (List.finRange 32).map
        (fun i => hexChars.getD (c i).val (Char.ofNat 48)) := rfl
    rw [List.all_eq_true]
    intro ch hch
    rw [hd] at hch
    rcases List.mem_map.mp hch with ⟨i, _, rfl⟩
    rw [decide_eq_true_eq]
    have h16 : (c i).val < hexChars.length := by
      have := (c i).isLt
      have hlen : hexChars.length = 16 := by decide
      omega
    rw [List.getD_eq_getElem hexChars _ h16]
    exact List.getElem_mem h16

/-- A case-insensitive literal match succeeds exactly when the case-folded
prefix of the input equals the case-folded literal, and then returns the
rest of the input. -/
theorem litMatchCI_eq (p : List Char) : ∀ l, litMatchCI p l =
    if (l.take p.length).map Char.toLower = p.map Char.toLower
    then some (l.drop p.length) else none := by
  induction p with
  | nil => intro l; simp [litMatchCI]
  | cons a ps ih =>
    intro l
    cases l with
    | nil => simp [litMatchCI]
    | cons ch cs =>
      have hu : litMatchCI (a :: ps) (ch :: cs) =
          if ch.toLower = a.toLower then litMatchCI ps cs else none := rfl
      rw [hu]
      simp only [List.length_cons, List.take_succ_cons, List.map_cons, List.drop_succ_cons]
      by_cases h : ch.toLower = a.toLower
      · rw [if_pos h, ih cs]
        by_cases h2 : (cs.take ps.length).map Char.toLower = ps.map Char.toLower
        · rw [if_pos h2, if_pos (by rw [h, h2])]
        · rw [if_neg h2, if_neg (fun hcons => h2 (List.cons.inj hcons).2)]
      · rw [if_neg h, if_neg (fun hcons => h (List.cons.inj hcons).1)]

/-- One anchored attempt of the pattern succeeds exactly when the
case-insensitive head test `ciVidAt` holds, and captures the 24
characters after the literal. -/
theorem matchVidAt_eq (l : List Char) :
    matchVidAt l =
      if ciVidAt l = true then some ((l.drop vidLit.length).take 24) else none := by
  by_cases h1 : (l.take vidLit.length).map Char.toLower = vidLit.map Char.toLower
  · have hlm : litMatchCI vidLit l = some (l.drop vidLit.length) := by
      rw [litMatchCI_eq vidLit l, if_pos h1]
    have hm : matchVidAt l =
        (if ((l.drop vidLit.length).take 24).length = 24 ∧
            ((l.drop vidLit.length).take 24).all hexCI
          then some ((l.drop vidLit.length).take 24) else none) := by
      rw [matchVidAt, hlm]
    rw [hm]
    by_cases h2 : ((l.drop vidLit.length).take 24).length = 24 ∧
        ((l.drop vidLit.length).take 24).all hexCI = true
    · rw [if_pos h2, if_pos (show ciVidAt l = true by
        simp only [ciVidAt, Bool.and_eq_true, decide_eq_true_eq]
        exact ⟨⟨h1, h2.1⟩, h2.2⟩)]
    · rw [if_neg h2, if_neg (show ¬ciVidAt l = true by
        simp only [ciVidAt, Bool.and_eq_true, decide_eq_true_eq]
        rintro ⟨⟨-, hb⟩, hc⟩
        exact h2 ⟨hb, hc⟩)]
  · have hlm : litMatchCI vidLit l = none := by
      rw [litMatchCI_eq vidLit l, if_neg h1]
    have hm : matchVidAt l = none := by
      rw [matchVidAt, hlm]
    rw [hm, if_neg (show ¬ciVidAt l = true by
      simp only [ciVidAt, Bool.and_eq_true, decide_eq_true_eq]
      rintro ⟨⟨ha, -⟩, -⟩
      exact h1 ha)]

/-- The left-to-right scan of `re.search` computes the same result as the
positional characterization `ciVidExtract`. -/
theorem reSearchVid_eq (l : List Char) : reSearchVid l = ciVidExtract l := by
  induction l with
  | nil => rfl
  | cons ch cs ih =>
    have hre : reSearchVid (ch :: cs) =
        (match matchVidAt (ch :: cs) with
         | some g => some g
         | none => reSearchVid cs) := rfl
    have hrange : List.range ((ch :: cs).length + 1) =
        0 :: (List.range (cs.length + 1)).map Nat.succ := by
      rw [List.length_cons, List.range_succ_eq_map]
    rw [hre, matchVidAt_eq, ciVidExtract, hrange, List.findSome?_cons]
    simp only [List.drop_zero]
    by_cases hci : ciVidAt (ch :: cs) = true
    · rw [if_pos hci]
    · rw [if_neg hci]
      show reSearchVid cs = List.findSome? _ _
      rw [List.findSome?_map, ih, ciVidExtract]
      congr 1

/-- C6 counterexample: the pattern is compiled with `re.IGNORECASE`, so a
URL whose 24 hex characters are uppercase is accepted and the extracted
identifier is uppercase, although the claimed lowercase-only pattern
occurs nowhere in the URL. -/
theorem c6_counterexample :
    extract_verification_id "https://x?verificationId=0123456789ABCDEF01234567"
      = some "0123456789ABCDEF01234567"
    ∧ claimVidAccepts ("https://x?verificationId=0123456789ABCDEF01234567".data) = false := by
  exact ⟨rfl, by decide⟩

/-- C6 (amended): the verification identifier is accepted and extracted
exactly as described by `ciVidExtract`: the URL must contain
`verificationId=` matched case-insensitively followed by at least 24
hexadecimal characters of either case, and the extraction returns the 24
characters (case preserved) after the leftmost such occurrence; an input
URL with no such occurrence is rejected and the next input is solicited. -/
theorem c6_ci_extraction (s : String) :
    extract_verification_id s = (ciVidExtract s.data).map String.mk
    ∧ ∀ u rest, extract_verification_id u = none →
        main_flow_vid (u :: rest) = main_flow_vid rest := by
  constructor
  · rw [extract_verification_id, reSearchVid_eq]
  · intro u rest h
    have hm : main_flow_vid (u :: rest) =
        (match extract_verification_id u with
         | some vid => some vid
         | none => main_flow_vid rest) := rfl
    rw [hm, h]

/-- C6 witness: a URL without the parameter agrees with the positional
characterization (both reject), and the prompt loop re-prompts past it. -/
theorem c6_ci_extraction_witness :
    extract_verification_id "https://nothing.example" =
      (ciVidExtract ("https://nothing.example".data)).map String.mk
    ∧ main_flow_vid
        ["https://nothing.example",
         "https://services.sheerid.com/verify/abc?verificationId=0123456789abcdef01234567"] =
      main_flow_vid
        ["https://services.sheerid.com/verify/abc?verificationId=0123456789abcdef01234567"] :=
  ⟨(c6_ci_extraction "https://nothing.example").1,
   (c6_ci_extraction "https://nothing.example").2 "https://nothing.example"
     ["https://services.sheerid.com/verify/abc?verificationId=0123456789abcdef01234567"] rfl⟩
